import Mathlib

/-!
Shallow embedding of `src/hyperleaup/publisher.py`.

The repository is a thin client over the `tableauserverclient` (TSC) SDK.
We model the SDK and the filesystem as an explicit `World` of oracle
results, and `Publisher.publish` as a pure function from a `Publisher`
and a `World` to a result, an updated `Publisher`, and a trace of the
external calls made (network calls and session events), in the order the
Python code performs them.
-/

namespace Hyperleaup

/-- A project entry as returned by the server's filtered project search
(`server.projects.get`): the Python code reads `project.name` and
`project.id`. -/
structure ProjectItem where
  name : String
  id : String
deriving DecidableEq

/-- A datasource entry as returned by the server's filtered datasource
search (`server.datasources.get`): the loop only reads `datasource.name`. -/
structure DatasourceEntry where
  name : String
deriving DecidableEq

/-- `TSC.Server.PublishMode` values used by the code. -/
inductive PublishMode
  | CreateNew
  | Overwrite
  | Append
deriving DecidableEq

/-- The `Publisher` object's fields, as set by `Publisher.__init__` and
mutated by `Publisher.publish` (`project_id`, `datasource_luid`). -/
structure Publisher where
  tableau_server_url : String
  username : String
  password : String
  site_id : String
  project_name : String
  project_id : Option String
  datasource_name : String
  datasource_luid : Option String
  hyper_file_path : String
deriving DecidableEq

/-- `Publisher.__init__`: stores the given parameters and initialises
`project_id` and `datasource_luid` to `None`. -/
def Publisher.init (tableau_server_url username password site_id
    project_name datasource_name hyper_file_path : String) : Publisher :=
  { tableau_server_url := tableau_server_url
    username := username
    password := password
    site_id := site_id
    project_name := project_name
    project_id := none
    datasource_name := datasource_name
    datasource_luid := none
    hyper_file_path := hyper_file_path }

/-- External calls made by `publish`, in program order.  `publishCall`
records the `project_id` put into the `DatasourceItem` handed to
`server.datasources.publish`, the mode, and the `as_job` flag. -/
inductive Event
  | useServerVersion
  | signIn
  | signOut
  | projectSearch
  | datasourceSearch
  | publishCall (project_id : Option String) (mode : PublishMode) (asJob : Bool)
  | waitForJob
deriving DecidableEq

/-- The exceptions `publish` can raise.  `fileNotFound` is the
`IOError("{path}: Hyper File not found")`; `invalidProject` and
`invalidCreationMode` are the two `ValueError`s (each carries the datum
named in its message); `remote` is any exception propagated from the
SDK collaborator. -/
inductive PubError
  | fileNotFound (path : String)
  | invalidProject (project_name : String)
  | invalidCreationMode (creation_mode : String)
  | remote (msg : String)
deriving DecidableEq

deriving instance DecidableEq for Except

/-- The environment a single `publish` call runs against: the local
filesystem check and the responses of the SDK collaborator, one per
external call site in the Python code. -/
structure World where
  fileExists : Bool
  signInOk : Bool
  projectsGetResult : Except String (List ProjectItem)
  datasourcesGetResult : Except String (List DatasourceEntry)
  publishSyncResult : Except String String
  publishJobResult : Except String String
  waitForJobResult : Except String Unit
deriving DecidableEq

/-- Outcome of a `publish` call: the returned value or raised exception,
the `Publisher` object as left by the call (its fields may have been
mutated even when an exception is raised), and the trace of external
calls. -/
structure PublishResult where
  result : Except PubError String
  publisher : Publisher
  trace : List Event
deriving DecidableEq

/-- Python's `str.upper()` as used on `creation_mode`: uppercase every
character (all strings compared here are ASCII, where `Char.toUpper`
agrees with Python's per-character uppercasing). -/
def pyUpper (s : String) : String := ⟨s.data.map Char.toUpper⟩

/-- The project-resolution loop:
`for project in projects: if project.name == self.project_name:
self.project_id = project.id`.  Starting value is the current
`self.project_id`; every matching entry overwrites it, so the last
match observed wins. -/
def resolvedProjectId (project_id0 : Option String) (project_name : String)
    (projects : List ProjectItem) : Option String :=
  projects.foldl
    (fun acc project => if project.name = project_name then some project.id else acc)
    project_id0

/-- The datasource-existence loop: iterate the search results and stop at
the first entry whose `name` equals `self.datasource_name` (the loop
`break`s there after selecting `Overwrite`). -/
def datasourceAlreadyExists (datasource_name : String)
    (datasources : List DatasourceEntry) : Bool :=
  datasources.any (fun datasource => datasource.name = datasource_name)

/-- The final publish step: build the `DatasourceItem` from
`self.project_id` and `self.datasource_name`, then either publish as a
job and wait for it (returning the job id), or publish synchronously
(storing and returning the datasource LUID). `tr` is the trace
accumulated so far inside the session. -/
def doPublish (self : Publisher) (w : World) (create_mode : PublishMode)
    (as_job : Bool) (tr : List Event) : PublishResult :=
  if as_job = true then
    match w.publishJobResult with
    | .error e =>
        ⟨.error (.remote e), self, tr ++ [.publishCall self.project_id create_mode true]⟩
    | .ok jobId =>
        match w.waitForJobResult with
        | .error e =>
            ⟨.error (.remote e), self,
              tr ++ [.publishCall self.project_id create_mode true, .waitForJob]⟩
        | .ok _ =>
            ⟨.ok jobId, self,
              tr ++ [.publishCall self.project_id create_mode true, .waitForJob]⟩
  else
    match w.publishSyncResult with
    | .error e =>
        ⟨.error (.remote e), self, tr ++ [.publishCall self.project_id create_mode false]⟩
    | .ok dsId =>
        ⟨.ok dsId, { self with datasource_luid := some dsId },
          tr ++ [.publishCall self.project_id create_mode false]⟩

/-- The body of the `with server.auth.sign_in(...)` block: project
search and resolution, the project-not-found check (`if self.project_id
is None`), the creation-mode dispatch (`creation_mode.upper()` against
`CREATENEW` / `APPEND`, else `ValueError`), and the publish step. -/
def publishBody (self : Publisher) (w : World) (creation_mode : String)
    (as_job : Bool) : PublishResult :=
  match w.projectsGetResult with
  | .error e => ⟨.error (.remote e), self, [.projectSearch]⟩
  | .ok projects =>
      let self1 : Publisher :=
        { self with
            project_id := resolvedProjectId self.project_id self.project_name projects }
      if self1.project_id = none then
        ⟨.error (.invalidProject self.project_name), self1, [.projectSearch]⟩
      else if pyUpper creation_mode = "CREATENEW" then
        match w.datasourcesGetResult with
        | .error e => ⟨.error (.remote e), self1, [.projectSearch, .datasourceSearch]⟩
        | .ok datasources =>
            let create_mode :=
              if datasourceAlreadyExists self.datasource_name datasources
              then PublishMode.Overwrite else PublishMode.CreateNew
            doPublish self1 w create_mode as_job [.projectSearch, .datasourceSearch]
      else if pyUpper creation_mode = "APPEND" then
        doPublish self1 w PublishMode.Append as_job [.projectSearch]
      else
        ⟨.error (.invalidCreationMode creation_mode), self1, [.projectSearch]⟩

/-- `Publisher.publish`: check the file exists (else `IOError`), build
the server object and fetch its version (`use_server_version`, a network
call), sign in, run the body inside the session, and sign out on every
exit from the `with` block (normal return or exception). -/
def Publisher.publish (self : Publisher) (w : World) (creation_mode : String)
    (as_job : Bool) : PublishResult :=
  if w.fileExists = false then
    ⟨.error (.fileNotFound self.hyper_file_path), self, []⟩
  else if w.signInOk = false then
    ⟨.error (.remote "sign in failed"), self, [.useServerVersion, .signIn]⟩
  else
    let body := publishBody self w creation_mode as_job
    ⟨body.result, body.publisher, .useServerVersion :: .signIn :: (body.trace ++ [.signOut])⟩

/-- A concrete publisher used for witnesses. -/
def examplePublisher : Publisher :=
  Publisher.init "https://tableau.example.com" "alice" "secret" "site1"
    "Analytics" "Sales" "/tmp/sales.hyper"

/-- A concrete world where every external call succeeds and the project
search finds exactly the configured project. -/
def exampleWorld : World :=
  { fileExists := true
    signInOk := true
    projectsGetResult := .ok [⟨"Analytics", "proj-1"⟩]
    datasourcesGetResult := .ok []
    publishSyncResult := .ok "luid-1"
    publishJobResult := .ok "job-1"
    waitForJobResult := .ok () }

/-! ### Helper lemmas shared by several claims -/

/-- When the file exists and sign-in succeeds, `publish` wraps the body's
result between the session events. -/
theorem publish_eq_body (self : Publisher) (w : World) (cm : String) (aj : Bool)
    (h1 : w.fileExists = true) (h2 : w.signInOk = true) :
    self.publish w cm aj =
      ⟨(publishBody self w cm aj).result, (publishBody self w cm aj).publisher,
        .useServerVersion :: .signIn ::
          ((publishBody self w cm aj).trace ++ [.signOut])⟩ := by
  simp [Publisher.publish, h1, h2]

/-- One fold step at the end of the project list. -/
theorem resolvedProjectId_append (pid0 : Option String) (pname : String)
    (ps : List ProjectItem) (p : ProjectItem) :
    resolvedProjectId pid0 pname (ps ++ [p]) =
      if p.name = pname then some p.id else resolvedProjectId pid0 pname ps := by
  simp [resolvedProjectId, List.foldl_append]

/-- The project-resolution loop computes the id of the last matching
entry, keeping the initial value when no entry matches. -/
theorem resolvedProjectId_eq (pid0 : Option String) (pname : String)
    (ps : List ProjectItem) :
    resolvedProjectId pid0 pname ps =
      match ps.reverse.find? (fun p => p.name = pname) with
      | some p => some p.id
      | none => pid0 := by
  induction ps using List.reverseRecOn with
  | nil => simp [resolvedProjectId]
  | append_singleton ps p ih =>
      rw [resolvedProjectId_append, List.reverse_append]
      by_cases hp : p.name = pname
      · simp [List.find?, hp]
      · simp [List.find?, hp, ih]

/-- If no returned project matches, the loop leaves `project_id` at its
initial value. -/
theorem resolvedProjectId_of_no_match (pid0 : Option String) (pname : String)
    (ps : List ProjectItem) (h : ∀ p ∈ ps, p.name ≠ pname) :
    resolvedProjectId pid0 pname ps = pid0 := by
  rw [resolvedProjectId_eq]
  have hfind : ps.reverse.find? (fun p => p.name = pname) = none := by
    rw [List.find?_eq_none]
    intro p hp
    simp only [decide_eq_true_eq]
    exact h p (List.mem_reverse.mp hp)
  rw [hfind]

/-- Every event added by `doPublish` beyond the accumulated trace is the
publish call itself (carrying the publisher's `project_id`, the resolved
mode, and the `as_job` flag) or the job wait. -/
theorem mem_doPublish_trace (self : Publisher) (w : World) (mode : PublishMode)
    (aj : Bool) (tr : List Event) (e : Event)
    (h : e ∈ (doPublish self w mode aj tr).trace) :
    e ∈ tr ∨ e = Event.publishCall self.project_id mode aj ∨ e = Event.waitForJob := by
  cases aj with
  | false =>
      rcases hps : w.publishSyncResult with e1 | dsId <;>
        simp [doPublish, hps] at h <;> tauto
  | true =>
      rcases hpj : w.publishJobResult with e1 | jobId
      · simp [doPublish, hpj] at h
        tauto
      · rcases hwj : w.waitForJobResult with e1 | u <;>
          simp [doPublish, hpj, hwj] at h <;> tauto

/-- Every event in the body's trace is a search, a publish call, or a
job wait: in particular never a session event. -/
theorem mem_publishBody_trace (self : Publisher) (w : World) (cm : String)
    (aj : Bool) (e : Event) (h : e ∈ (publishBody self w cm aj).trace) :
    e = Event.projectSearch ∨ e = Event.datasourceSearch ∨
      (∃ pid m a, e = Event.publishCall pid m a) ∨ e = Event.waitForJob := by
  rcases hpg : w.projectsGetResult with eg | ps
  · simp [publishBody, hpg] at h
    simp [h]
  · by_cases hnone : resolvedProjectId self.project_id self.project_name ps = none
    · simp [publishBody, hpg, hnone] at h
      simp [h]
    · by_cases hcn : pyUpper cm = "CREATENEW"
      · rcases hdg : w.datasourcesGetResult with ed | ds
        · simp [publishBody, hpg, hnone, hcn, hdg] at h
          rcases h with h | h <;> simp [h]
        · simp only [publishBody, hpg, hnone, hcn, hdg, if_true, if_false,
            ite_false, ite_true] at h
          rcases mem_doPublish_trace _ _ _ _ _ _ h with h' | h' | h' <;>
            simp_all <;> tauto
      · by_cases hap : pyUpper cm = "APPEND"
        · simp only [publishBody, hpg, hnone, hcn, hap, if_true, if_false,
            ite_false, ite_true] at h
          rcases mem_doPublish_trace _ _ _ _ _ _ h with h' | h' | h' <;>
            simp_all
        · simp [publishBody, hpg, hnone, hcn, hap] at h
          simp [h]

/-- Reduction: synchronous publish succeeding. -/
theorem doPublish_sync_ok (self : Publisher) (w : World) (mode : PublishMode)
    (tr : List Event) (dsId : String) (h : w.publishSyncResult = .ok dsId) :
    doPublish self w mode false tr =
      ⟨.ok dsId, { self with datasource_luid := some dsId },
        tr ++ [.publishCall self.project_id mode false]⟩ := by
  simp [doPublish, h]

/-- Reduction: asynchronous publish whose job completes successfully. -/
theorem doPublish_job_ok (self : Publisher) (w : World) (mode : PublishMode)
    (tr : List Event) (jobId : String)
    (h1 : w.publishJobResult = .ok jobId) (h2 : w.waitForJobResult = .ok ()) :
    doPublish self w mode true tr =
      ⟨.ok jobId, self,
        tr ++ [.publishCall self.project_id mode true, .waitForJob]⟩ := by
  simp [doPublish, h1, h2]

/-- A successful `doPublish` result comes from the corresponding SDK
call succeeding (publish-and-wait for jobs, plain publish otherwise). -/
theorem doPublish_result_ok (self : Publisher) (w : World) (mode : PublishMode)
    (aj : Bool) (tr : List Event) (x : String)
    (h : (doPublish self w mode aj tr).result = .ok x) :
    (aj = true → w.publishJobResult = .ok x ∧ w.waitForJobResult = .ok ()) ∧
      (aj = false → w.publishSyncResult = .ok x) := by
  cases aj with
  | false =>
      rcases hps : w.publishSyncResult with e1 | d <;>
        simp [doPublish, hps] at h <;> simp_all
  | true =>
      rcases hpj : w.publishJobResult with e1 | j
      · simp [doPublish, hpj] at h
      · rcases hwj : w.waitForJobResult with e1 | u <;>
          simp [doPublish, hpj, hwj] at h <;> simp_all

/-- `doPublish` never touches the configuration fields or `project_id`. -/
theorem doPublish_publisher_fields (self : Publisher) (w : World)
    (mode : PublishMode) (aj : Bool) (tr : List Event) :
    ((doPublish self w mode aj tr).publisher.tableau_server_url = self.tableau_server_url ∧
      (doPublish self w mode aj tr).publisher.username = self.username ∧
      (doPublish self w mode aj tr).publisher.password = self.password ∧
      (doPublish self w mode aj tr).publisher.site_id = self.site_id ∧
      (doPublish self w mode aj tr).publisher.project_name = self.project_name ∧
      (doPublish self w mode aj tr).publisher.datasource_name = self.datasource_name ∧
      (doPublish self w mode aj tr).publisher.hyper_file_path = self.hyper_file_path) ∧
      (doPublish self w mode aj tr).publisher.project_id = self.project_id := by
  cases aj with
  | false =>
      rcases hps : w.publishSyncResult with e1 | d <;> simp [doPublish, hps]
  | true =>
      rcases hpj : w.publishJobResult with e1 | j
      · simp [doPublish, hpj]
      · rcases hwj : w.waitForJobResult with e1 | u <;> simp [doPublish, hpj, hwj]

/-- `doPublish` in job mode never writes `datasource_luid`. -/
theorem doPublish_luid_job (self : Publisher) (w : World) (mode : PublishMode)
    (tr : List Event) :
    (doPublish self w mode true tr).publisher.datasource_luid = self.datasource_luid := by
  rcases hpj : w.publishJobResult with e1 | j
  · simp [doPublish, hpj]
  · rcases hwj : w.waitForJobResult with e1 | u <;> simp [doPublish, hpj, hwj]

/-- A successful synchronous `doPublish` stores the returned LUID. -/
theorem doPublish_luid_sync (self : Publisher) (w : World) (mode : PublishMode)
    (tr : List Event) (x : String)
    (h : (doPublish self w mode false tr).result = .ok x) :
    (doPublish self w mode false tr).publisher.datasource_luid = some x := by
  rcases hps : w.publishSyncResult with e1 | d <;>
    simp [doPublish, hps] at h ⊢ <;> simp_all

/-- Reduction of the body when the project search fails remotely. -/
theorem publishBody_projects_error (self : Publisher) (w : World) (cm : String)
    (aj : Bool) (eg : String) (hpg : w.projectsGetResult = .error eg) :
    publishBody self w cm aj = ⟨.error (.remote eg), self, [.projectSearch]⟩ := by
  simp [publishBody, hpg]

/-- Reduction of the body when no project matches and `project_id` was
still `None`: the `ValueError` for a missing project. -/
theorem publishBody_no_project (self : Publisher) (w : World) (cm : String)
    (aj : Bool) (ps : List ProjectItem) (hpg : w.projectsGetResult = .ok ps)
    (hnone : resolvedProjectId self.project_id self.project_name ps = none) :
    publishBody self w cm aj =
      ⟨.error (.invalidProject self.project_name),
        { self with project_id := none }, [.projectSearch]⟩ := by
  simp [publishBody, hpg, hnone]

/-- Reduction of the body in the `CREATENEW` branch with a successful
datasource search: the effective mode is `Overwrite` exactly when the
search returned a matching datasource. -/
theorem publishBody_createNew (self : Publisher) (w : World) (cm : String)
    (aj : Bool) (ps : List ProjectItem) (ds : List DatasourceEntry)
    (hpg : w.projectsGetResult = .ok ps)
    (hnone : resolvedProjectId self.project_id self.project_name ps ≠ none)
    (hcn : pyUpper cm = "CREATENEW")
    (hdg : w.datasourcesGetResult = .ok ds) :
    publishBody self w cm aj =
      doPublish
        { self with project_id := resolvedProjectId self.project_id self.project_name ps }
        w
        (if datasourceAlreadyExists self.datasource_name ds
         then PublishMode.Overwrite else PublishMode.CreateNew)
        aj [.projectSearch, .datasourceSearch] := by
  simp only [publishBody, hpg, hcn, hdg, if_pos, if_neg, hnone, ite_true, ite_false]

/-- Reduction of the body in the `APPEND` branch: no datasource search,
mode fixed to `Append`. -/
theorem publishBody_append (self : Publisher) (w : World) (cm : String)
    (aj : Bool) (ps : List ProjectItem)
    (hpg : w.projectsGetResult = .ok ps)
    (hnone : resolvedProjectId self.project_id self.project_name ps ≠ none)
    (hap : pyUpper cm = "APPEND") :
    publishBody self w cm aj =
      doPublish
        { self with project_id := resolvedProjectId self.project_id self.project_name ps }
        w PublishMode.Append aj [.projectSearch] := by
  have hcn : pyUpper cm ≠ "CREATENEW" := by rw [hap]; decide
  simp only [publishBody, hpg, hcn, hap, ite_true, ite_false]
  all_goals (split <;> simp_all)

/-- Reduction of the body for a creation mode matching neither
`CREATENEW` nor `APPEND`: the `ValueError` naming the bad value. -/
theorem publishBody_invalid_mode (self : Publisher) (w : World) (cm : String)
    (aj : Bool) (ps : List ProjectItem)
    (hpg : w.projectsGetResult = .ok ps)
    (hnone : resolvedProjectId self.project_id self.project_name ps ≠ none)
    (hcn : pyUpper cm ≠ "CREATENEW") (hap : pyUpper cm ≠ "APPEND") :
    publishBody self w cm aj =
      ⟨.error (.invalidCreationMode cm),
        { self with project_id := resolvedProjectId self.project_id self.project_name ps },
        [.projectSearch]⟩ := by
  simp only [publishBody, hpg, hcn, hap, ite_true, ite_false]
  all_goals (split <;> simp_all)

/-- Reduction of the body in the `CREATENEW` branch when the datasource
search itself fails remotely. -/
theorem publishBody_ds_error (self : Publisher) (w : World) (cm : String)
    (aj : Bool) (ps : List ProjectItem) (ed : String)
    (hpg : w.projectsGetResult = .ok ps)
    (hnone : resolvedProjectId self.project_id self.project_name ps ≠ none)
    (hcn : pyUpper cm = "CREATENEW")
    (hdg : w.datasourcesGetResult = .error ed) :
    publishBody self w cm aj =
      ⟨.error (.remote ed),
        { self with project_id := resolvedProjectId self.project_id self.project_name ps },
        [.projectSearch, .datasourceSearch]⟩ := by
  simp only [publishBody, hpg, hcn, hdg, ite_true, ite_false]
  all_goals (split <;> simp_all)

/-- The publisher object left by `doPublish` is the input object,
possibly with `datasource_luid` overwritten. -/
theorem doPublish_publisher_cases (self : Publisher) (w : World)
    (mode : PublishMode) (aj : Bool) (tr : List Event) :
    (doPublish self w mode aj tr).publisher = self ∨
      ∃ d, (doPublish self w mode aj tr).publisher =
        { self with datasource_luid := some d } := by
  cases aj with
  | false =>
      rcases hps : w.publishSyncResult with e1 | d
      · left; simp [doPublish, hps]
      · right; exact ⟨d, by simp [doPublish, hps]⟩
  | true =>
      rcases hpj : w.publishJobResult with e1 | j
      · left; simp [doPublish, hpj]
      · rcases hwj : w.waitForJobResult with e1 | u <;> left <;>
          simp [doPublish, hpj, hwj]

/-- A successful body result comes from the corresponding SDK publish
call succeeding. -/
theorem publishBody_result_ok (self : Publisher) (w : World) (cm : String)
    (aj : Bool) (x : String)
    (h : (publishBody self w cm aj).result = .ok x) :
    (aj = true → w.publishJobResult = .ok x ∧ w.waitForJobResult = .ok ()) ∧
      (aj = false → w.publishSyncResult = .ok x) := by
  rcases hpg : w.projectsGetResult with eg | ps
  · rw [publishBody_projects_error self w cm aj eg hpg] at h
    simp at h
  · by_cases hnone : resolvedProjectId self.project_id self.project_name ps = none
    · rw [publishBody_no_project self w cm aj ps hpg hnone] at h
      simp at h
    · by_cases hcn : pyUpper cm = "CREATENEW"
      · rcases hdg : w.datasourcesGetResult with ed | ds
        · rw [publishBody_ds_error self w cm aj ps ed hpg hnone hcn hdg] at h
          simp at h
        · rw [publishBody_createNew self w cm aj ps ds hpg hnone hcn hdg] at h
          exact doPublish_result_ok _ _ _ _ _ _ h
      · by_cases hap : pyUpper cm = "APPEND"
        · rw [publishBody_append self w cm aj ps hpg hnone hap] at h
          exact doPublish_result_ok _ _ _ _ _ _ h
        · rw [publishBody_invalid_mode self w cm aj ps hpg hnone hcn hap] at h
          simp at h

/-- A successful synchronous body stores the returned LUID on the
publisher. -/
theorem publishBody_luid_sync (self : Publisher) (w : World) (cm : String)
    (x : String) (h : (publishBody self w cm false).result = .ok x) :
    (publishBody self w cm false).publisher.datasource_luid = some x := by
  rcases hpg : w.projectsGetResult with eg | ps
  · rw [publishBody_projects_error self w cm false eg hpg] at h
    simp at h
  · by_cases hnone : resolvedProjectId self.project_id self.project_name ps = none
    · rw [publishBody_no_project self w cm false ps hpg hnone] at h
      simp at h
    · by_cases hcn : pyUpper cm = "CREATENEW"
      · rcases hdg : w.datasourcesGetResult with ed | ds
        · rw [publishBody_ds_error self w cm false ps ed hpg hnone hcn hdg] at h
          simp at h
        · rw [publishBody_createNew self w cm false ps ds hpg hnone hcn hdg] at h ⊢
          exact doPublish_luid_sync _ _ _ _ _ h
      · by_cases hap : pyUpper cm = "APPEND"
        · rw [publishBody_append self w cm false ps hpg hnone hap] at h ⊢
          exact doPublish_luid_sync _ _ _ _ _ h
        · rw [publishBody_invalid_mode self w cm false ps hpg hnone hcn hap] at h
          simp at h

/-- An asynchronous body never writes `datasource_luid`. -/
theorem publishBody_luid_job (self : Publisher) (w : World) (cm : String) :
    (publishBody self w cm true).publisher.datasource_luid =
      self.datasource_luid := by
  rcases hpg : w.projectsGetResult with eg | ps
  · rw [publishBody_projects_error self w cm true eg hpg]
  · by_cases hnone : resolvedProjectId self.project_id self.project_name ps = none
    · rw [publishBody_no_project self w cm true ps hpg hnone]
    · by_cases hcn : pyUpper cm = "CREATENEW"
      · rcases hdg : w.datasourcesGetResult with ed | ds
        · rw [publishBody_ds_error self w cm true ps ed hpg hnone hcn hdg]
        · rw [publishBody_createNew self w cm true ps ds hpg hnone hcn hdg,
            doPublish_luid_job]
      · by_cases hap : pyUpper cm = "APPEND"
        · rw [publishBody_append self w cm true ps hpg hnone hap, doPublish_luid_job]
        · rw [publishBody_invalid_mode self w cm true ps hpg hnone hcn hap]

/-- The body never changes the configuration fields of the publisher. -/
theorem publishBody_fields (self : Publisher) (w : World) (cm : String)
    (aj : Bool) :
    (publishBody self w cm aj).publisher.tableau_server_url = self.tableau_server_url ∧
      (publishBody self w cm aj).publisher.username = self.username ∧
      (publishBody self w cm aj).publisher.password = self.password ∧
      (publishBody self w cm aj).publisher.site_id = self.site_id ∧
      (publishBody self w cm aj).publisher.project_name = self.project_name ∧
      (publishBody self w cm aj).publisher.datasource_name = self.datasource_name ∧
      (publishBody self w cm aj).publisher.hyper_file_path = self.hyper_file_path := by
  rcases hpg : w.projectsGetResult with eg | ps
  · rw [publishBody_projects_error self w cm aj eg hpg]
    simp
  · by_cases hnone : resolvedProjectId self.project_id self.project_name ps = none
    · rw [publishBody_no_project self w cm aj ps hpg hnone]
      simp
    · by_cases hcn : pyUpper cm = "CREATENEW"
      · rcases hdg : w.datasourcesGetResult with ed | ds
        · rw [publishBody_ds_error self w cm aj ps ed hpg hnone hcn hdg]
          simp
        · rw [publishBody_createNew self w cm aj ps ds hpg hnone hcn hdg]
          rcases doPublish_publisher_cases
              { self with
                  project_id := resolvedProjectId self.project_id self.project_name ps }
              w
              (if datasourceAlreadyExists self.datasource_name ds
               then PublishMode.Overwrite else PublishMode.CreateNew)
              aj [.projectSearch, .datasourceSearch] with hc | ⟨d, hc⟩ <;>
            simp [hc]
      · by_cases hap : pyUpper cm = "APPEND"
        · rw [publishBody_append self w cm aj ps hpg hnone hap]
          rcases doPublish_publisher_cases
              { self with
                  project_id := resolvedProjectId self.project_id self.project_name ps }
              w .Append aj [.projectSearch] with hc | ⟨d, hc⟩ <;>
            simp [hc]
        · rw [publishBody_invalid_mode self w cm aj ps hpg hnone hcn hap]
          simp

/-- After a body run on a successful project search, `project_id` holds
the value computed by the resolution loop. -/
theorem publishBody_project_id_ok (self : Publisher) (w : World) (cm : String)
    (aj : Bool) (ps : List ProjectItem)
    (hpg : w.projectsGetResult = .ok ps) :
    (publishBody self w cm aj).publisher.project_id =
      resolvedProjectId self.project_id self.project_name ps := by
  by_cases hnone : resolvedProjectId self.project_id self.project_name ps = none
  · rw [publishBody_no_project self w cm aj ps hpg hnone, hnone]
  · by_cases hcn : pyUpper cm = "CREATENEW"
    · rcases hdg : w.datasourcesGetResult with ed | ds
      · rw [publishBody_ds_error self w cm aj ps ed hpg hnone hcn hdg]
      · rw [publishBody_createNew self w cm aj ps ds hpg hnone hcn hdg]
        rcases doPublish_publisher_cases
            { self with
                project_id := resolvedProjectId self.project_id self.project_name ps }
            w
            (if datasourceAlreadyExists self.datasource_name ds
             then PublishMode.Overwrite else PublishMode.CreateNew)
            aj [.projectSearch, .datasourceSearch] with hc | ⟨d, hc⟩ <;>
          simp [hc]
    · by_cases hap : pyUpper cm = "APPEND"
      · rw [publishBody_append self w cm aj ps hpg hnone hap]
        rcases doPublish_publisher_cases
            { self with
                project_id := resolvedProjectId self.project_id self.project_name ps }
            w .Append aj [.projectSearch] with hc | ⟨d, hc⟩ <;>
          simp [hc]
      · rw [publishBody_invalid_mode self w cm aj ps hpg hnone hcn hap]

/-- A non-session event in the full trace already occurs in the body's
trace. -/
theorem mem_publish_trace_body (self : Publisher) (w : World) (cm : String)
    (aj : Bool) (e : Event) (h : e ∈ (self.publish w cm aj).trace)
    (h1 : e ≠ Event.useServerVersion) (h2 : e ≠ Event.signIn)
    (h3 : e ≠ Event.signOut) :
    e ∈ (publishBody self w cm aj).trace := by
  cases hf : w.fileExists with
  | false => simp [Publisher.publish, hf] at h
  | true =>
      cases hs : w.signInOk with
      | false =>
          simp [Publisher.publish, hf, hs] at h
          tauto
      | true =>
          rw [publish_eq_body self w cm aj hf hs] at h
          simp only [PublishResult.trace] at h
          rcases List.mem_cons.mp h with h' | h'
          · exact absurd h' h1
          rcases List.mem_cons.mp h' with h'' | h''
          · exact absurd h'' h2
          rcases List.mem_append.mp h'' with h3' | h3'
          · exact h3'
          · simp at h3'
            exact absurd h3' h3

/-! ### The claims -/

/-- A world identical to `exampleWorld` except the Hyper file is absent
from the local filesystem. -/
def worldNoFile : World := { exampleWorld with fileExists := false }

/-- C4: for every file path that does not refer to an existing file on
disk, `publish` raises the `IOError` identifying the missing path, and
the trace is empty — no network call (server-version fetch, sign-in,
search, or publish) is attempted. -/
theorem C4_file_not_found (self : Publisher) (w : World) (cm : String)
    (aj : Bool) (h : w.fileExists = false) :
    (self.publish w cm aj).result = .error (.fileNotFound self.hyper_file_path) ∧
      (self.publish w cm aj).trace = [] := by
  simp [Publisher.publish, h]

theorem C4_file_not_found_witness :
    (examplePublisher.publish worldNoFile "CreateNew" false).result =
        .error (.fileNotFound examplePublisher.hyper_file_path) ∧
      (examplePublisher.publish worldNoFile "CreateNew" false).trace = [] :=
  C4_file_not_found examplePublisher worldNoFile "CreateNew" false rfl

/-- C1: with `creation_mode` case-insensitively `CreateNew`, the mode
handed to the publish primitive is `Overwrite` exactly when the
datasource search returned an entry named like the configured
datasource, and `CreateNew` otherwise; with `creation_mode`
case-insensitively `Append`, no datasource search happens and any mode
handed to the publish primitive is `Append`. -/
theorem C1_effective_mode (self : Publisher) (w : World) (cm : String)
    (aj : Bool) (ds : List DatasourceEntry)
    (hdg : w.datasourcesGetResult = .ok ds) :
    (pyUpper cm = "CREATENEW" →
      ∀ pid m a, Event.publishCall pid m a ∈ (self.publish w cm aj).trace →
        m = (if datasourceAlreadyExists self.datasource_name ds
             then PublishMode.Overwrite else PublishMode.CreateNew)) ∧
    (pyUpper cm = "APPEND" →
      Event.datasourceSearch ∉ (self.publish w cm aj).trace ∧
      ∀ pid m a, Event.publishCall pid m a ∈ (self.publish w cm aj).trace →
        m = PublishMode.Append) := by
  constructor
  · intro hcn pid m a hmem
    have hb := mem_publish_trace_body self w cm aj _ hmem
      (by simp) (by simp) (by simp)
    rcases hpg : w.projectsGetResult with eg | ps
    · rw [publishBody_projects_error self w cm aj eg hpg] at hb
      simp at hb
    · by_cases hnone : resolvedProjectId self.project_id self.project_name ps = none
      · rw [publishBody_no_project self w cm aj ps hpg hnone] at hb
        simp at hb
      · rw [publishBody_createNew self w cm aj ps ds hpg hnone hcn hdg] at hb
        rcases mem_doPublish_trace _ _ _ _ _ _ hb with h' | h' | h'
        · simp at h'
        · simp only [Event.publishCall.injEq] at h'
          exact h'.2.1
        · simp at h'
  · intro hap
    have hcn : pyUpper cm ≠ "CREATENEW" := by rw [hap]; decide
    constructor
    · intro hmem
      have hb := mem_publish_trace_body self w cm aj _ hmem
        (by simp) (by simp) (by simp)
      rcases hpg : w.projectsGetResult with eg | ps
      · rw [publishBody_projects_error self w cm aj eg hpg] at hb
        simp at hb
      · by_cases hnone : resolvedProjectId self.project_id self.project_name ps = none
        · rw [publishBody_no_project self w cm aj ps hpg hnone] at hb
          simp at hb
        · rw [publishBody_append self w cm aj ps hpg hnone hap] at hb
          rcases mem_doPublish_trace _ _ _ _ _ _ hb with h' | h' | h' <;> simp at h'
    · intro pid m a hmem
      have hb := mem_publish_trace_body self w cm aj _ hmem
        (by simp) (by simp) (by simp)
      rcases hpg : w.projectsGetResult with eg | ps
      · rw [publishBody_projects_error self w cm aj eg hpg] at hb
        simp at hb
      · by_cases hnone : resolvedProjectId self.project_id self.project_name ps = none
        · rw [publishBody_no_project self w cm aj ps hpg hnone] at hb
          simp at hb
        · rw [publishBody_append self w cm aj ps hpg hnone hap] at hb
          rcases mem_doPublish_trace _ _ _ _ _ _ hb with h' | h' | h'
          · simp at h'
          · simp only [Event.publishCall.injEq] at h'
            exact h'.2.1
          · simp at h'

theorem C1_effective_mode_witness :
    ((pyUpper "CreateNew" = "CREATENEW" →
      ∀ pid m a,
        Event.publishCall pid m a ∈
            (examplePublisher.publish exampleWorld "CreateNew" false).trace →
          m = (if datasourceAlreadyExists examplePublisher.datasource_name []
               then PublishMode.Overwrite else PublishMode.CreateNew)) ∧
    (pyUpper "CreateNew" = "APPEND" →
      Event.datasourceSearch ∉
          (examplePublisher.publish exampleWorld "CreateNew" false).trace ∧
      ∀ pid m a,
        Event.publishCall pid m a ∈
            (examplePublisher.publish exampleWorld "CreateNew" false).trace →
          m = PublishMode.Append)) :=
  C1_effective_mode examplePublisher exampleWorld "CreateNew" false [] rfl

/-- C3 counterexample: on the file-not-found failure path the claim
fails — the call raises before any session is opened, so the trace
contains zero sign-out (and zero sign-in) events rather than exactly
one session close. -/
theorem C3_counterexample :
    (examplePublisher.publish worldNoFile "CreateNew" false).result =
        .error (.fileNotFound "/tmp/sales.hyper") ∧
      (examplePublisher.publish worldNoFile "CreateNew" false).trace.count
          Event.signOut = 0 ∧
      (examplePublisher.publish worldNoFile "CreateNew" false).trace.count
          Event.signIn = 0 := by
  decide

/-- C3 amended: on every `publish` call in which the local file exists
and sign-in succeeds — which includes the project-not-found, bad
creation-mode, and publish-failure paths — the session is closed exactly
once, as the very last external event before the call returns or the
error surfaces; when the file is missing no session is opened at all. -/
theorem C3_amended (self : Publisher) (w : World) (cm : String) (aj : Bool)
    (h1 : w.fileExists = true) (h2 : w.signInOk = true) :
    (self.publish w cm aj).trace.count Event.signOut = 1 ∧
      (self.publish w cm aj).trace.getLast? = some Event.signOut := by
  rw [publish_eq_body self w cm aj h1 h2]
  simp only [PublishResult.trace]
  have hb : Event.signOut ∉ (publishBody self w cm aj).trace := by
    intro hmem
    rcases mem_publishBody_trace _ _ _ _ _ hmem with h | h | ⟨pid, m, a, h⟩ | h <;>
      simp at h
  constructor
  · simp [List.count_cons, List.count_append, List.count_eq_zero.mpr hb]
  · have hsplit :
        Event.useServerVersion :: Event.signIn ::
            ((publishBody self w cm aj).trace ++ [Event.signOut]) =
          (Event.useServerVersion :: Event.signIn ::
            (publishBody self w cm aj).trace) ++ [Event.signOut] := by
      simp
    rw [hsplit, List.getLast?_append_cons]
    rfl

theorem C3_amended_witness :
    (examplePublisher.publish exampleWorld "CreateNew" false).trace.count
        Event.signOut = 1 ∧
      (examplePublisher.publish exampleWorld "CreateNew" false).trace.getLast? =
        some Event.signOut :=
  C3_amended examplePublisher exampleWorld "CreateNew" false rfl rfl

/-- C2 counterexample: `"Overwrite"` belongs to the claimed accepted set
{CreateNew, Overwrite, Append} (case-insensitively), yet a `publish`
call that reaches the mode dispatch raises the invalid-creation-mode
`ValueError` naming it: the dispatch recognises only `CREATENEW` and
`APPEND`. -/
theorem C2_counterexample :
    (pyUpper "Overwrite" = "CREATENEW" ∨ pyUpper "Overwrite" = "OVERWRITE" ∨
        pyUpper "Overwrite" = "APPEND") ∧
      (examplePublisher.publish exampleWorld "Overwrite" false).result =
        .error (.invalidCreationMode "Overwrite") := by
  decide

/-- `doPublish` either returns an id or propagates a remote failure: it
never raises either `ValueError` itself. -/
theorem doPublish_result_shape (self : Publisher) (w : World) (mode : PublishMode)
    (aj : Bool) (tr : List Event) :
    (∃ x, (doPublish self w mode aj tr).result = .ok x) ∨
      ∃ e, (doPublish self w mode aj tr).result = .error (.remote e) := by
  cases aj with
  | false =>
      rcases hps : w.publishSyncResult with e1 | d
      · right; exact ⟨e1, by simp [doPublish, hps]⟩
      · left; exact ⟨d, by simp [doPublish, hps]⟩
  | true =>
      rcases hpj : w.publishJobResult with e1 | j
      · right; exact ⟨e1, by simp [doPublish, hpj]⟩
      · rcases hwj : w.waitForJobResult with e1 | u
        · right; exact ⟨e1, by simp [doPublish, hpj, hwj]⟩
        · left; exact ⟨j, by simp [doPublish, hpj, hwj]⟩

/-- C2 amended: with the file present, sign-in succeeding and the
project resolved, `publish` raises the invalid-creation-mode
`ValueError` naming the given value exactly when `creation_mode` is
case-insensitively outside the set {CreateNew, Append} — the code also
rejects `Overwrite`, so the accepted set is smaller than the claim's;
whenever that error is raised it is after the project search and before
any publish call. -/
theorem C2_amended (self : Publisher) (w : World) (cm : String) (aj : Bool)
    (ps : List ProjectItem) (pid : String)
    (h1 : w.fileExists = true) (h2 : w.signInOk = true)
    (hpg : w.projectsGetResult = .ok ps)
    (hres : resolvedProjectId self.project_id self.project_name ps = some pid) :
    ((self.publish w cm aj).result = .error (.invalidCreationMode cm) ↔
      (pyUpper cm ≠ "CREATENEW" ∧ pyUpper cm ≠ "APPEND")) ∧
    (pyUpper cm ≠ "CREATENEW" → pyUpper cm ≠ "APPEND" →
      Event.projectSearch ∈ (self.publish w cm aj).trace ∧
        ∀ pid2 m a, Event.publishCall pid2 m a ∉ (self.publish w cm aj).trace) := by
  have hnone : resolvedProjectId self.project_id self.project_name ps ≠ none := by
    rw [hres]; simp
  have hkey :
      ((publishBody self w cm aj).result = .error (.invalidCreationMode cm) ↔
        (pyUpper cm ≠ "CREATENEW" ∧ pyUpper cm ≠ "APPEND")) ∧
      (pyUpper cm ≠ "CREATENEW" → pyUpper cm ≠ "APPEND" →
        (publishBody self w cm aj).trace = [Event.projectSearch]) := by
    by_cases hcn : pyUpper cm = "CREATENEW"
    · refine ⟨⟨?_, ?_⟩, ?_⟩
      · intro hr
        rcases hdg : w.datasourcesGetResult with ed | ds
        · rw [publishBody_ds_error self w cm aj ps ed hpg hnone hcn hdg] at hr
          simp at hr
        · rw [publishBody_createNew self w cm aj ps ds hpg hnone hcn hdg] at hr
          rcases doPublish_result_shape
              { self with
                  project_id := resolvedProjectId self.project_id self.project_name ps }
              w
              (if datasourceAlreadyExists self.datasource_name ds
               then PublishMode.Overwrite else PublishMode.CreateNew)
              aj [.projectSearch, .datasourceSearch] with ⟨x, hx⟩ | ⟨e1, he⟩
          · rw [hx] at hr; simp at hr
          · rw [he] at hr; simp at hr
      · rintro ⟨hc1, _⟩
        exact absurd hcn hc1
      · intro hc1 _
        exact absurd hcn hc1
    · by_cases hap : pyUpper cm = "APPEND"
      · refine ⟨⟨?_, ?_⟩, ?_⟩
        · intro hr
          rw [publishBody_append self w cm aj ps hpg hnone hap] at hr
          rcases doPublish_result_shape
              { self with
                  project_id := resolvedProjectId self.project_id self.project_name ps }
              w PublishMode.Append aj [.projectSearch] with ⟨x, hx⟩ | ⟨e1, he⟩
          · rw [hx] at hr; simp at hr
          · rw [he] at hr; simp at hr
        · rintro ⟨_, hc2⟩
          exact absurd hap hc2
        · intro _ hc2
          exact absurd hap hc2
      · have hred := publishBody_invalid_mode self w cm aj ps hpg hnone hcn hap
        rw [hred]
        refine ⟨?_, ?_⟩
        · simp [hcn, hap]
        · intro _ _
          rfl
  rw [publish_eq_body self w cm aj h1 h2]
  refine ⟨?_, ?_⟩
  · simpa using hkey.1
  · intro hc1 hc2
    have htr := hkey.2 hc1 hc2
    constructor
    · simp [htr]
    · intro pid2 m a
      simp [htr]

theorem C2_amended_witness :
    (((examplePublisher.publish exampleWorld "Foo" false).result =
          .error (.invalidCreationMode "Foo") ↔
        (pyUpper "Foo" ≠ "CREATENEW" ∧ pyUpper "Foo" ≠ "APPEND")) ∧
      (pyUpper "Foo" ≠ "CREATENEW" → pyUpper "Foo" ≠ "APPEND" →
        Event.projectSearch ∈ (examplePublisher.publish exampleWorld "Foo" false).trace ∧
          ∀ pid2 m a,
            Event.publishCall pid2 m a ∉
              (examplePublisher.publish exampleWorld "Foo" false).trace)) :=
  C2_amended examplePublisher exampleWorld "Foo" false
    [⟨"Analytics", "proj-1"⟩] "proj-1" rfl rfl rfl (by decide)

/-- Once the resolution loop produced a non-`None` id, the body can no
longer raise the invalid-project `ValueError`. -/
theorem publishBody_no_invalidProject (self : Publisher) (w : World) (cm : String)
    (aj : Bool) (ps : List ProjectItem) (s : String)
    (hpg : w.projectsGetResult = .ok ps)
    (hnone : resolvedProjectId self.project_id self.project_name ps ≠ none) :
    (publishBody self w cm aj).result ≠ .error (.invalidProject s) := by
  by_cases hcn : pyUpper cm = "CREATENEW"
  · rcases hdg : w.datasourcesGetResult with ed | ds
    · rw [publishBody_ds_error self w cm aj ps ed hpg hnone hcn hdg]
      simp
    · rw [publishBody_createNew self w cm aj ps ds hpg hnone hcn hdg]
      rcases doPublish_result_shape
          { self with
              project_id := resolvedProjectId self.project_id self.project_name ps }
          w
          (if datasourceAlreadyExists self.datasource_name ds
           then PublishMode.Overwrite else PublishMode.CreateNew)
          aj [.projectSearch, .datasourceSearch] with ⟨x, hx⟩ | ⟨e1, he⟩
      · simp [hx]
      · simp [he]
  · by_cases hap : pyUpper cm = "APPEND"
    · rw [publishBody_append self w cm aj ps hpg hnone hap]
      rcases doPublish_result_shape
          { self with
              project_id := resolvedProjectId self.project_id self.project_name ps }
          w PublishMode.Append aj [.projectSearch] with ⟨x, hx⟩ | ⟨e1, he⟩
      · simp [hx]
      · simp [he]
    · rw [publishBody_invalid_mode self w cm aj ps hpg hnone hcn hap]
      simp

/-- Any publish call recorded by the body carries the `project_id`
computed by the resolution loop. -/
theorem publishCall_mem_body_pid (self : Publisher) (w : World) (cm : String)
    (aj : Bool) (ps : List ProjectItem) (pid2 : Option String)
    (m : PublishMode) (a : Bool)
    (hpg : w.projectsGetResult = .ok ps)
    (hmem : Event.publishCall pid2 m a ∈ (publishBody self w cm aj).trace) :
    pid2 = resolvedProjectId self.project_id self.project_name ps := by
  by_cases hnone : resolvedProjectId self.project_id self.project_name ps = none
  · rw [publishBody_no_project self w cm aj ps hpg hnone] at hmem
    simp at hmem
  · by_cases hcn : pyUpper cm = "CREATENEW"
    · rcases hdg : w.datasourcesGetResult with ed | ds
      · rw [publishBody_ds_error self w cm aj ps ed hpg hnone hcn hdg] at hmem
        simp at hmem
      · rw [publishBody_createNew self w cm aj ps ds hpg hnone hcn hdg] at hmem
        rcases mem_doPublish_trace _ _ _ _ _ _ hmem with h | h | h
        · simp at h
        · simp only [Event.publishCall.injEq] at h
          simpa using h.1
        · simp at h
    · by_cases hap : pyUpper cm = "APPEND"
      · rw [publishBody_append self w cm aj ps hpg hnone hap] at hmem
        rcases mem_doPublish_trace _ _ _ _ _ _ hmem with h | h | h
        · simp at h
        · simp only [Event.publishCall.injEq] at h
          simpa using h.1
        · simp at h
      · rw [publishBody_invalid_mode self w cm aj ps hpg hnone hcn hap] at hmem
        simp at hmem

/-- The publisher left behind by the first example publish call: its
`project_id` (and `datasource_luid`) are now populated. -/
def stalePublisher : Publisher :=
  (examplePublisher.publish exampleWorld "CreateNew" false).publisher

/-- A world identical to `exampleWorld` except the project search
returns no entries at all. -/
def worldNoProject : World := { exampleWorld with projectsGetResult := .ok [] }

/-- C5 counterexample: a publish call on a Publisher whose `project_id`
was populated by an earlier call, with a project search returning no
matching entry, does not fail: it succeeds and hands the stale project
id to the publish primitive, contradicting the claim's universal
quantification over publish calls. -/
theorem C5_counterexample :
    stalePublisher.project_id = some "proj-1" ∧
      (stalePublisher.publish worldNoProject "CreateNew" false).result =
        .ok "luid-1" ∧
      Event.publishCall (some "proj-1") PublishMode.CreateNew false ∈
        (stalePublisher.publish worldNoProject "CreateNew" false).trace := by
  decide

/-- C5 amended: on a Publisher whose `project_id` is still `None` (as
freshly constructed), a publish call whose project search returns no
entry named like the configured project fails with the invalid-project
`ValueError` naming it, and the publish primitive is never called. -/
theorem C5_amended (self : Publisher) (w : World) (cm : String) (aj : Bool)
    (ps : List ProjectItem)
    (h1 : w.fileExists = true) (h2 : w.signInOk = true)
    (hpg : w.projectsGetResult = .ok ps)
    (hmatch : ∀ p ∈ ps, p.name ≠ self.project_name)
    (hfresh : self.project_id = none) :
    (self.publish w cm aj).result = .error (.invalidProject self.project_name) ∧
      ∀ pid m a, Event.publishCall pid m a ∉ (self.publish w cm aj).trace := by
  have hnone : resolvedProjectId self.project_id self.project_name ps = none := by
    rw [resolvedProjectId_of_no_match self.project_id self.project_name ps hmatch,
      hfresh]
  rw [publish_eq_body self w cm aj h1 h2,
    publishBody_no_project self w cm aj ps hpg hnone]
  constructor
  · rfl
  · intro pid m a
    simp

theorem C5_amended_witness :
    (examplePublisher.publish worldNoProject "CreateNew" false).result =
        .error (.invalidProject examplePublisher.project_name) ∧
      ∀ pid m a,
        Event.publishCall pid m a ∉
          (examplePublisher.publish worldNoProject "CreateNew" false).trace :=
  C5_amended examplePublisher worldNoProject "CreateNew" false [] rfl rfl rfl
    (by simp) rfl

/-- C10: on a Publisher whose `project_id` was set by an earlier publish
call, a later publish call whose project search returns no matching
entry does not raise the project-not-found error: the stale id passes
the `None` check, remains in place, and is the project id handed to the
publish primitive. -/
theorem C10_stale_project_id (self : Publisher) (w : World) (cm : String)
    (aj : Bool) (ps : List ProjectItem) (pid : String)
    (h1 : w.fileExists = true) (h2 : w.signInOk = true)
    (hpg : w.projectsGetResult = .ok ps)
    (hmatch : ∀ p ∈ ps, p.name ≠ self.project_name)
    (hstale : self.project_id = some pid) :
    (∀ s, (self.publish w cm aj).result ≠ .error (.invalidProject s)) ∧
      (self.publish w cm aj).publisher.project_id = some pid ∧
      ∀ pid2 m a, Event.publishCall pid2 m a ∈ (self.publish w cm aj).trace →
        pid2 = some pid := by
  have hres : resolvedProjectId self.project_id self.project_name ps = some pid := by
    rw [resolvedProjectId_of_no_match self.project_id self.project_name ps hmatch,
      hstale]
  have hnone : resolvedProjectId self.project_id self.project_name ps ≠ none := by
    rw [hres]; simp
  rw [publish_eq_body self w cm aj h1 h2]
  refine ⟨?_, ?_, ?_⟩
  · intro s
    simpa using publishBody_no_invalidProject self w cm aj ps s hpg hnone
  · have hp := publishBody_project_id_ok self w cm aj ps hpg
    simpa [hres] using hp
  · intro pid2 m a hmem
    have hb : Event.publishCall pid2 m a ∈ (publishBody self w cm aj).trace := by
      simpa using hmem
    exact (publishCall_mem_body_pid self w cm aj ps pid2 m a hpg hb).trans hres

theorem C10_stale_project_id_witness :
    (∀ s,
      (stalePublisher.publish worldNoProject "Append" false).result ≠
        .error (.invalidProject s)) ∧
      (stalePublisher.publish worldNoProject "Append" false).publisher.project_id =
        some "proj-1" ∧
      ∀ pid2 m a,
        Event.publishCall pid2 m a ∈
            (stalePublisher.publish worldNoProject "Append" false).trace →
          pid2 = some "proj-1" :=
  C10_stale_project_id stalePublisher worldNoProject "Append" false [] "proj-1"
    rfl rfl rfl (by simp) (by decide)

/-- Reduction: job publish accepted but the wait reports failure. -/
theorem doPublish_wait_error (self : Publisher) (w : World) (mode : PublishMode)
    (tr : List Event) (e jobId : String)
    (hpj : w.publishJobResult = .ok jobId)
    (hwj : w.waitForJobResult = .error e) :
    doPublish self w mode true tr =
      ⟨.error (.remote e), self,
        tr ++ [.publishCall self.project_id mode true, .waitForJob]⟩ := by
  simp [doPublish, hpj, hwj]

/-- If the job wait fails and `doPublish` reached the wait, its result is
the propagated failure. -/
theorem doPublish_wait_mem_result (self : Publisher) (w : World)
    (mode : PublishMode) (aj : Bool) (tr : List Event) (e : String)
    (hwj : w.waitForJobResult = .error e)
    (htr : Event.waitForJob ∉ tr)
    (hmem : Event.waitForJob ∈ (doPublish self w mode aj tr).trace) :
    (doPublish self w mode aj tr).result = .error (.remote e) := by
  cases aj with
  | false =>
      rcases hps : w.publishSyncResult with e1 | d <;>
        simp [doPublish, hps] at hmem <;> exact absurd hmem htr
  | true =>
      rcases hpj : w.publishJobResult with e1 | j
      · simp [doPublish, hpj] at hmem
        exact absurd hmem htr
      · rw [doPublish_wait_error self w mode tr e j hpj hwj]

/-- If the job wait fails and the body's trace shows the wait was
reached, the body's result is the propagated failure. -/
theorem publishBody_wait_error (self : Publisher) (w : World) (cm : String)
    (aj : Bool) (e : String)
    (hwj : w.waitForJobResult = .error e)
    (hmem : Event.waitForJob ∈ (publishBody self w cm aj).trace) :
    (publishBody self w cm aj).result = .error (.remote e) := by
  rcases hpg : w.projectsGetResult with eg | ps
  · rw [publishBody_projects_error self w cm aj eg hpg] at hmem
    simp at hmem
  · by_cases hnone : resolvedProjectId self.project_id self.project_name ps = none
    · rw [publishBody_no_project self w cm aj ps hpg hnone] at hmem
      simp at hmem
    · by_cases hcn : pyUpper cm = "CREATENEW"
      · rcases hdg : w.datasourcesGetResult with ed | ds
        · rw [publishBody_ds_error self w cm aj ps ed hpg hnone hcn hdg] at hmem
          simp at hmem
        · rw [publishBody_createNew self w cm aj ps ds hpg hnone hcn hdg] at hmem ⊢
          exact doPublish_wait_mem_result _ _ _ _ _ _ hwj (by simp) hmem
      · by_cases hap : pyUpper cm = "APPEND"
        · rw [publishBody_append self w cm aj ps hpg hnone hap] at hmem ⊢
          exact doPublish_wait_mem_result _ _ _ _ _ _ hwj (by simp) hmem
        · rw [publishBody_invalid_mode self w cm aj ps hpg hnone hcn hap] at hmem
          simp at hmem

/-- A successful job-mode body reached the job wait. -/
theorem publishBody_ok_job_trace (self : Publisher) (w : World) (cm : String)
    (x : String) (h : (publishBody self w cm true).result = .ok x) :
    Event.waitForJob ∈ (publishBody self w cm true).trace := by
  rcases hpg : w.projectsGetResult with eg | ps
  · rw [publishBody_projects_error self w cm true eg hpg] at h
    simp at h
  · by_cases hnone : resolvedProjectId self.project_id self.project_name ps = none
    · rw [publishBody_no_project self w cm true ps hpg hnone] at h
      simp at h
    · by_cases hcn : pyUpper cm = "CREATENEW"
      · rcases hdg : w.datasourcesGetResult with ed | ds
        · rw [publishBody_ds_error self w cm true ps ed hpg hnone hcn hdg] at h
          simp at h
        · rw [publishBody_createNew self w cm true ps ds hpg hnone hcn hdg] at h ⊢
          have hro := (doPublish_result_ok _ _ _ _ _ _ h).1 rfl
          rw [doPublish_job_ok _ _ _ _ x hro.1 hro.2]
          simp
      · by_cases hap : pyUpper cm = "APPEND"
        · rw [publishBody_append self w cm true ps hpg hnone hap] at h ⊢
          have hro := (doPublish_result_ok _ _ _ _ _ _ h).1 rfl
          rw [doPublish_job_ok _ _ _ _ x hro.1 hro.2]
          simp
        · rw [publishBody_invalid_mode self w cm true ps hpg hnone hcn hap] at h
          simp at h

/-- A successful body leaves a populated `project_id` behind. -/
theorem publishBody_ok_project_id (self : Publisher) (w : World) (cm : String)
    (aj : Bool) (x : String)
    (h : (publishBody self w cm aj).result = .ok x) :
    (publishBody self w cm aj).publisher.project_id ≠ none := by
  rcases hpg : w.projectsGetResult with eg | ps
  · rw [publishBody_projects_error self w cm aj eg hpg] at h
    simp at h
  · by_cases hnone : resolvedProjectId self.project_id self.project_name ps = none
    · rw [publishBody_no_project self w cm aj ps hpg hnone] at h
      simp at h
    · rw [publishBody_project_id_ok self w cm aj ps hpg]
      exact hnone

/-- C6: every successful synchronous publish call returns exactly the
identifier the publish primitive produced, and stores that same
identifier in `datasource_luid` on the instance. -/
theorem C6_sync_returns_luid (self : Publisher) (w : World) (cm : String)
    (x : String) (h : (self.publish w cm false).result = .ok x) :
    w.publishSyncResult = .ok x ∧
      (self.publish w cm false).publisher.datasource_luid = some x := by
  cases hf : w.fileExists with
  | false => simp [Publisher.publish, hf] at h
  | true =>
      cases hs : w.signInOk with
      | false => simp [Publisher.publish, hf, hs] at h
      | true =>
          rw [publish_eq_body self w cm false hf hs] at h ⊢
          refine ⟨(publishBody_result_ok self w cm false x h).2 rfl, ?_⟩
          simpa using publishBody_luid_sync self w cm x h

theorem C6_sync_returns_luid_witness :
    exampleWorld.publishSyncResult = .ok "luid-1" ∧
      (examplePublisher.publish exampleWorld "CreateNew" false).publisher.datasource_luid =
        some "luid-1" :=
  C6_sync_returns_luid examplePublisher exampleWorld "CreateNew" "luid-1" (by decide)

/-- C7: in job mode a successful publish call means the publish
primitive returned that job, the call waited on it, and the wait
reported success; and if the wait reports the job failed, the reached
call raises that failure rather than swallowing it. -/
theorem C7_job_mode (self : Publisher) (w : World) (cm : String)
    (jobId e : String) :
    ((self.publish w cm true).result = .ok jobId →
      w.publishJobResult = .ok jobId ∧ w.waitForJobResult = .ok () ∧
        Event.waitForJob ∈ (self.publish w cm true).trace) ∧
    (w.waitForJobResult = .error e →
      Event.waitForJob ∈ (self.publish w cm true).trace →
      (self.publish w cm true).result = .error (.remote e)) := by
  constructor
  · intro h
    cases hf : w.fileExists with
    | false => simp [Publisher.publish, hf] at h
    | true =>
        cases hs : w.signInOk with
        | false => simp [Publisher.publish, hf, hs] at h
        | true =>
            rw [publish_eq_body self w cm true hf hs] at h ⊢
            have hro := (publishBody_result_ok self w cm true jobId h).1 rfl
            refine ⟨hro.1, hro.2, ?_⟩
            have hm := publishBody_ok_job_trace self w cm jobId h
            simp only [PublishResult.trace, List.mem_cons, List.mem_append]
            tauto
  · intro hwj hmem
    cases hf : w.fileExists with
    | false => simp [Publisher.publish, hf] at hmem
    | true =>
        cases hs : w.signInOk with
        | false => simp [Publisher.publish, hf, hs] at hmem
        | true =>
            rw [publish_eq_body self w cm true hf hs] at hmem ⊢
            have hb : Event.waitForJob ∈ (publishBody self w cm true).trace := by
              simpa using hmem
            simpa using publishBody_wait_error self w cm true e hwj hb

theorem C7_job_mode_witness :
    exampleWorld.publishJobResult = .ok "job-1" ∧
      exampleWorld.waitForJobResult = .ok () ∧
      Event.waitForJob ∈ (examplePublisher.publish exampleWorld "CreateNew" true).trace :=
  (C7_job_mode examplePublisher exampleWorld "CreateNew" "job-1" "boom").1 (by decide)

/-- C8 counterexample: an asynchronous publish call that the collaborator
reports as fully successful returns the job id, yet leaves
`datasource_luid` at `None` — the "resolved datasource identifier" is
not set even though publish succeeded. -/
theorem C8_counterexample :
    (examplePublisher.publish exampleWorld "CreateNew" true).result = .ok "job-1" ∧
      (examplePublisher.publish exampleWorld "CreateNew" true).publisher.datasource_luid =
        none := by
  decide

/-- C8 amended: `publish` leaves every field other than `project_id` and
`datasource_luid` unchanged on every path; an asynchronous call never
writes `datasource_luid`, even when it succeeds; a successful
synchronous call stores the returned identifier in `datasource_luid`;
and any successful call leaves `project_id` populated. -/
theorem C8_amended (self : Publisher) (w : World) (cm : String) (aj : Bool) :
    ((self.publish w cm aj).publisher.tableau_server_url = self.tableau_server_url ∧
      (self.publish w cm aj).publisher.username = self.username ∧
      (self.publish w cm aj).publisher.password = self.password ∧
      (self.publish w cm aj).publisher.site_id = self.site_id ∧
      (self.publish w cm aj).publisher.project_name = self.project_name ∧
      (self.publish w cm aj).publisher.datasource_name = self.datasource_name ∧
      (self.publish w cm aj).publisher.hyper_file_path = self.hyper_file_path) ∧
    (aj = true →
      (self.publish w cm aj).publisher.datasource_luid = self.datasource_luid) ∧
    (∀ x, (self.publish w cm false).result = .ok x →
      (self.publish w cm false).publisher.datasource_luid = some x) ∧
    (∀ x, (self.publish w cm aj).result = .ok x →
      (self.publish w cm aj).publisher.project_id ≠ none) := by
  refine ⟨?_, ?_, ?_, ?_⟩
  · cases hf : w.fileExists with
    | false => simp [Publisher.publish, hf]
    | true =>
        cases hs : w.signInOk with
        | false => simp [Publisher.publish, hf, hs]
        | true =>
            rw [publish_eq_body self w cm aj hf hs]
            simpa using publishBody_fields self w cm aj
  · intro haj
    subst haj
    cases hf : w.fileExists with
    | false => simp [Publisher.publish, hf]
    | true =>
        cases hs : w.signInOk with
        | false => simp [Publisher.publish, hf, hs]
        | true =>
            rw [publish_eq_body self w cm true hf hs]
            simpa using publishBody_luid_job self w cm
  · intro x hx
    cases hf : w.fileExists with
    | false => simp [Publisher.publish, hf] at hx
    | true =>
        cases hs : w.signInOk with
        | false => simp [Publisher.publish, hf, hs] at hx
        | true =>
            rw [publish_eq_body self w cm false hf hs] at hx ⊢
            simpa using publishBody_luid_sync self w cm x hx
  · intro x hx
    cases hf : w.fileExists with
    | false => simp [Publisher.publish, hf] at hx
    | true =>
        cases hs : w.signInOk with
        | false => simp [Publisher.publish, hf, hs] at hx
        | true =>
            rw [publish_eq_body self w cm aj hf hs] at hx ⊢
            simpa using publishBody_ok_project_id self w cm aj x hx

theorem C8_amended_witness :
    (examplePublisher.publish exampleWorld "CreateNew" true).publisher.username =
        examplePublisher.username ∧
      (examplePublisher.publish exampleWorld "CreateNew" true).publisher.datasource_luid =
        examplePublisher.datasource_luid ∧
      (examplePublisher.publish exampleWorld "CreateNew" false).publisher.datasource_luid =
        some "luid-1" :=
  ⟨((C8_amended examplePublisher exampleWorld "CreateNew" true).1).2.1,
   (C8_amended examplePublisher exampleWorld "CreateNew" true).2.1 rfl,
   (C8_amended examplePublisher exampleWorld "CreateNew" false).2.2.1 "luid-1" (by decide)⟩

/-- A world whose project search returns two entries matching the
configured project name with an unrelated entry between them. -/
def multiProjectWorld : World :=
  { exampleWorld with
      projectsGetResult :=
        .ok [⟨"Analytics", "projA"⟩, ⟨"Other", "projX"⟩, ⟨"Analytics", "projB"⟩] }

/-- C9: when the project search returns more than one entry named like
the configured project, the id of the last matching entry in iteration
order is the one kept in `project_id` and handed to the publish
primitive. -/
theorem C9_last_match_wins (self : Publisher) (w : World) (cm : String)
    (aj : Bool) (ps : List ProjectItem) (p : ProjectItem)
    (h1 : w.fileExists = true) (h2 : w.signInOk = true)
    (hpg : w.projectsGetResult = .ok ps)
    (hmult : 2 ≤ (ps.filter (fun q => q.name = self.project_name)).length)
    (hlast : ps.reverse.find? (fun q => q.name = self.project_name) = some p) :
    (self.publish w cm aj).publisher.project_id = some p.id ∧
      ∀ pid m a, Event.publishCall pid m a ∈ (self.publish w cm aj).trace →
        pid = some p.id := by
  have hres : resolvedProjectId self.project_id self.project_name ps = some p.id := by
    rw [resolvedProjectId_eq, hlast]
  rw [publish_eq_body self w cm aj h1 h2]
  constructor
  · have hp := publishBody_project_id_ok self w cm aj ps hpg
    simpa [hres] using hp
  · intro pid m a hmem
    have hb : Event.publishCall pid m a ∈ (publishBody self w cm aj).trace := by
      simpa using hmem
    exact (publishCall_mem_body_pid self w cm aj ps pid m a hpg hb).trans hres

theorem C9_last_match_wins_witness :
    (examplePublisher.publish multiProjectWorld "Append" false).publisher.project_id =
        some "projB" ∧
      ∀ pid m a,
        Event.publishCall pid m a ∈
            (examplePublisher.publish multiProjectWorld "Append" false).trace →
          pid = some "projB" :=
  C9_last_match_wins examplePublisher multiProjectWorld "Append" false
    [⟨"Analytics", "projA"⟩, ⟨"Other", "projX"⟩, ⟨"Analytics", "projB"⟩]
    ⟨"Analytics", "projB"⟩ rfl rfl rfl (by decide) (by decide)

end Hyperleaup
